import Mathlib

/-!
Verification of the galaxy-brain ticket-triage core: a shallow embedding of
`UrgencyClassifier.classify_urgency` (src/packages/nlp_utils/src/extractors.py),
the `Ticket` data model (src/packages/nlp_utils/src/models.py), and
`TriageAgent.process_email` / `TriageAgent._create_fallback_ticket`
(src/agent.py).

External ML components (spaCy entity extraction, the sentiment transformer,
the LLM call) are modelled as inputs: their outputs are parameters of the
embedded functions.  Python floats are modelled as rationals; Python strings
as Lean strings (code points), with `str.lower` as `String.toLower`.
-/

/-- The three sentiment labels of the `Ticket.sentiment` Literal type. -/
inductive Sentiment where
  | positive
  | neutral
  | negative
deriving DecidableEq, Repr

/-- The three urgency labels of the `Ticket.urgency` Literal type. -/
inductive Urgency where
  | low
  | medium
  | high
deriving DecidableEq, Repr

/-- `isPrefixL needle hay`: `needle` is a prefix of `hay` (character lists). -/
def isPrefixL : List Char → List Char → Bool
  | [], _ => true
  | _ :: _, [] => false
  | a :: as, b :: bs => a == b && isPrefixL as bs

/-- `isSubL needle hay`: `needle` occurs as a contiguous substring of `hay`.
Embeds Python's `needle in hay` on strings. -/
def isSubL (needle : List Char) : List Char → Bool
  | [] => isPrefixL needle []
  | b :: bs => isPrefixL needle (b :: bs) || isSubL needle bs

/-- Python `keyword in text`: substring containment on strings. -/
def strContainsSub (hay needle : String) : Bool :=
  isSubL needle.data hay.data

/-- Python `text.lower()` (ASCII case folding, character by character). -/
def lowerStr (s : String) : String :=
  String.mk (s.data.map Char.toLower)

/-- `UrgencyClassifier.high_urgency_keywords` from extractors.py. -/
def high_urgency_keywords : List String :=
  [ "urgent", "emergency", "asap", "immediately", "critical",
    "broken", "down", "not working", "error", "bug", "crash",
    "angry", "frustrated", "disappointed", "unacceptable" ]

/-- `UrgencyClassifier.medium_urgency_keywords` from extractors.py. -/
def medium_urgency_keywords : List String :=
  [ "soon", "issue", "problem", "question", "help",
    "support", "assistance", "confused", "unclear" ]

/-- `sum(1 for keyword in kws if keyword in text_lower)`: the number of
keywords from `kws` that occur as substrings of `textLower`. -/
def keywordScore (kws : List String) (textLower : String) : Int :=
  ((kws.filter (fun k => strContainsSub textLower k)).length : Int)

/-- The dictionary returned by `UrgencyClassifier.classify_urgency`:
urgency label, confidence, and the `keyword_matches` entries (the code
stores the post-adjustment `high_score` there, since it mutates the
variable in place). -/
structure UrgencyResult where
  urgency : Urgency
  confidence : ℚ
  highMatches : Int
  mediumMatches : Int
deriving DecidableEq, Repr

/-- Embedding of `UrgencyClassifier.classify_urgency(text, sentiment)`
(extractors.py lines 109-140): lowercase the text, count keyword hits,
adjust `high_score` by sentiment, then decide urgency by ordered rules. -/
def classify_urgency (text : String) (sentiment : Sentiment) : UrgencyResult :=
  let text_lower := lowerStr text
  let hs0 := keywordScore high_urgency_keywords text_lower
  let medium_score := keywordScore medium_urgency_keywords text_lower
  let high_score : Int :=
    match sentiment with
    | .negative => hs0 + 2
    | .positive => hs0 - 1
    | .neutral => hs0
  if 3 ≤ high_score then
    { urgency := .high
      confidence := min ((9 : ℚ)/10) ((1 : ℚ)/2 + (high_score : ℚ) * ((1 : ℚ)/10))
      highMatches := high_score
      mediumMatches := medium_score }
  else if 1 ≤ high_score ∨ 2 ≤ medium_score then
    { urgency := .medium
      confidence := min ((8 : ℚ)/10) ((4 : ℚ)/10 + ((high_score : ℚ) + (medium_score : ℚ)) * ((1 : ℚ)/10))
      highMatches := high_score
      mediumMatches := medium_score }
  else
    { urgency := .low
      confidence := (6 : ℚ)/10
      highMatches := high_score
      mediumMatches := medium_score }

/-- Number of (possibly overlapping) starting positions at which `needle`
occurs in `hay`. -/
def occCount (needle : List Char) : List Char → Nat
  | [] => if isPrefixL needle [] then 1 else 0
  | b :: bs => (if isPrefixL needle (b :: bs) then 1 else 0) + occCount needle bs

/-- Modelled from the spec: the score §4.1 describes — "count case-insensitive
substring occurrences of each set's terms", every occurrence of every term
contributing one.  This is the spec reading of the keyword score, to be
compared with `keywordScore`, which embeds the source. -/
def occurrenceScore_spec (kws : List String) (text : String) : Int :=
  ((kws.map (fun k => occCount k.data (lowerStr text).data)).sum : Int)

/-- `Entity` (models.py lines 5-11).  `confidence` carries a `[0,1]` pydantic
constraint checked at construction by the extractor, outside this embedding. -/
structure Entity where
  text : String
  label : String
  start : Int
  «end» : Int
  confidence : ℚ
deriving DecidableEq, Repr

/-- `Ticket` (models.py lines 14-29).  The `Literal` fields are embedded as
the inductive types `Sentiment` and `Urgency`; the pydantic range check on
`confidence_score` is `ticketValid` below. -/
structure Ticket where
  customer_id : String
  product : String
  sentiment : Sentiment
  urgency : Urgency
  entities : List Entity
  summary : String
  next_action : String
  confidence_score : ℚ
deriving DecidableEq, Repr

/-- The pydantic field validation `Ticket(...)` performs on construction:
`confidence_score` must lie in `[0,1]` (`ge=0.0, le=1.0`). -/
def ticketValid (t : Ticket) : Bool :=
  decide ((0 : ℚ) ≤ t.confidence_score) && decide (t.confidence_score ≤ 1)

/-- `Ticket(**fields)`: returns the ticket when validation passes, `none`
when pydantic would raise a `ValidationError`. -/
def mkTicket (t : Ticket) : Option Ticket :=
  if ticketValid t then some t else none

/-- The dictionary returned by `SentimentAnalyzer.analyze_sentiment`
(label and confidence; the auxiliary per-label scores are unused by the
agent).  The analyzer is an external model, so this is an input. -/
structure SentimentResult where
  sentiment : Sentiment
  confidence : ℚ
deriving DecidableEq, Repr

/-- Python `text.replace(' ', '_')` for single-character arguments. -/
def replaceSpaces (s : String) : String :=
  String.mk (s.data.map (fun c => if c == ' ' then '_' else c))

/-- Python `text.upper()` (ASCII case folding, character by character). -/
def upperStr (s : String) : String :=
  String.mk (s.data.map Char.toUpper)

/-- Python `len(s)` on strings (code points). -/
def strLen (s : String) : Nat :=
  s.data.length

/-- Python `s[:n]` on strings (first `n` code points). -/
def takeStr (s : String) (n : Nat) : String :=
  String.mk (s.data.take n)

/-- The eight field values `TriageAgent._create_fallback_ticket` computes
(agent.py lines 101-136), before pydantic validation. -/
def fallbackFields (email_text : String) (entities : List Entity)
    (product_mentions : List String) (sentiment_result : SentimentResult)
    (urgency_result : UrgencyResult) : Ticket :=
  let customer_id :=
    match entities.find? (fun e => e.label == "PERSON" || e.label == "ORG") with
    | some e => "C_" ++ upperStr (replaceSpaces e.text)
    | none => "UNKNOWN"
  let product :=
    match product_mentions with
    | p :: _ => p
    | [] => "General Support"
  let summary :=
    if strLen email_text > 100 then takeStr email_text 100 ++ "..." else email_text
  let next_action :=
    if urgency_result.urgency == Urgency.high then "escalate_to_tier_2" else "assign_to_support"
  { customer_id := customer_id
    product := product
    sentiment := sentiment_result.sentiment
    urgency := urgency_result.urgency
    entities := entities
    summary := summary
    next_action := next_action
    confidence_score := (sentiment_result.confidence + urgency_result.confidence) / 2 }

/-- `TriageAgent._create_fallback_ticket`: the fallback fields passed to the
`Ticket` constructor (whose validation is not wrapped in any handler, so a
`ValidationError` here would propagate — hence `Option`). -/
def create_fallback_ticket (email_text : String) (entities : List Entity)
    (product_mentions : List String) (sentiment_result : SentimentResult)
    (urgency_result : UrgencyResult) : Option Ticket :=
  mkTicket (fallbackFields email_text entities product_mentions sentiment_result urgency_result)

/-- Outcome of the `await self.agent.run(...)` LLM call: a structured ticket
(already validated by pydantic-ai against the `Ticket` model) or any
exception.  The LLM is an external component, so this is an input. -/
inductive LLMOutcome where
  | success (t : Ticket)
  | failure
deriving DecidableEq, Repr

/-- Embedding of `TriageAgent.process_email` (agent.py lines 46-99).  The
external model outputs (entities, product mentions, sentiment result, LLM
outcome) are parameters; the urgency classification is computed from the
email text and the sentiment label exactly as in the source.  On LLM success
the returned ticket's `confidence_score` is overridden with the mean of the
two ML confidences and the ticket is re-validated; any failure inside the
`try` block (LLM error or re-validation error) falls back to
`_create_fallback_ticket`.  `none` models the one uncaught path: a
`ValidationError` raised inside the fallback itself. -/
def process_email (email_text : String) (entities : List Entity)
    (product_mentions : List String) (sentiment_result : SentimentResult)
    (llm : LLMOutcome) : Option Ticket :=
  let urgency_result := classify_urgency email_text sentiment_result.sentiment
  match llm with
  | .success t =>
    match mkTicket { t with confidence_score :=
        (sentiment_result.confidence + urgency_result.confidence) / 2 } with
    | some ticket => some ticket
    | none =>
      create_fallback_ticket email_text entities product_mentions sentiment_result urgency_result
  | .failure =>
    create_fallback_ticket email_text entities product_mentions sentiment_result urgency_result

/-- Modelled from the spec (§4.1 decision policy): the sentiment adjustment
followed by the ordered first-match-wins rules, stated over the two keyword
scores.  This is the spec's reading of the decision, to be compared with the
decision embedded in `classify_urgency`. -/
def classify_urgency_decision_spec (highScore mediumScore : Int)
    (sentiment : Sentiment) : Urgency × ℚ :=
  let adjusted : Int :=
    match sentiment with
    | .negative => highScore + 2
    | .positive => highScore - 1
    | .neutral => highScore
  if 3 ≤ adjusted then
    (Urgency.high, min ((9 : ℚ)/10) ((1 : ℚ)/2 + (adjusted : ℚ) * ((1 : ℚ)/10)))
  else if 1 ≤ adjusted ∨ 2 ≤ mediumScore then
    (Urgency.medium,
      min ((8 : ℚ)/10) ((4 : ℚ)/10 + ((adjusted : ℚ) + (mediumScore : ℚ)) * ((1 : ℚ)/10)))
  else
    (Urgency.low, (6 : ℚ)/10)

/-- The empty email. -/
def emptyEmail : String := ""

/-- The example email of the spec's §8 second scenario. -/
def exampleEmail : String := "Hi, just a quick question about billing."

/-- A text in which the high-urgency keyword "urgent" occurs twice. -/
def doubledText : String := "urgent urgent"

/-- A short email (3 characters) for boundary checks. -/
def shortEmail : String := "abc"

/-- A second short email, differing from `shortEmail`. -/
def otherEmail : String := "xyz"

/-- A 101-character email, one past the summary-truncation boundary. -/
def longEmail : String := String.mk (List.replicate 101 'a')

/-- A neutral sentiment result with confidence 1/2, used as a concrete input. -/
def srNeutral : SentimentResult := { sentiment := .neutral, confidence := (1 : ℚ)/2 }

/-- A low-urgency result with the classifier's fixed confidence, used as a
concrete input. -/
def urLow : UrgencyResult :=
  { urgency := .low, confidence := (6 : ℚ)/10, highMatches := 0, mediumMatches := 0 }

/-- The concrete fallback ticket for the empty email with neutral sentiment. -/
def demoFallbackTicket : Ticket :=
  fallbackFields emptyEmail [] [] srNeutral (classify_urgency emptyEmail Sentiment.neutral)

/-- A concrete structured ticket as the LLM might return it, carrying a
confidence score of 1 that the agent must discard. -/
def llmProposedTicket : Ticket :=
  { customer_id := "C_LLM"
    product := "Widget"
    sentiment := .neutral
    urgency := .low
    entities := []
    summary := "llm summary"
    next_action := "close_resolved"
    confidence_score := 1 }

theorem keywordScore_nonneg (kws : List String) (t : String) :
    (0 : Int) ≤ keywordScore kws t := Int.natCast_nonneg _

/-- The full range property of the urgency decision, stated over the two
integer scores after sentiment adjustment (`-1 ≤ h` because the raw count is
nonnegative and the positive-sentiment adjustment subtracts one). -/
theorem urgencyDecisionBounds (h m : Int) (hneg : -1 ≤ h) (hm : 0 ≤ m) :
    let r : UrgencyResult :=
      if 3 ≤ h then
        { urgency := .high
          confidence := min ((9 : ℚ)/10) ((1 : ℚ)/2 + (h : ℚ) * ((1 : ℚ)/10))
          highMatches := h, mediumMatches := m }
      else if 1 ≤ h ∨ 2 ≤ m then
        { urgency := .medium
          confidence := min ((8 : ℚ)/10) ((4 : ℚ)/10 + ((h : ℚ) + (m : ℚ)) * ((1 : ℚ)/10))
          highMatches := h, mediumMatches := m }
      else
        { urgency := .low, confidence := (6 : ℚ)/10
          highMatches := h, mediumMatches := m }
    (r.urgency = Urgency.low ∨ r.urgency = Urgency.medium ∨ r.urgency = Urgency.high) ∧
    0 ≤ r.confidence ∧ r.confidence ≤ (9 : ℚ)/10 ∧
    (r.urgency = Urgency.high → r.confidence ≤ (9 : ℚ)/10) ∧
    (r.urgency = Urgency.medium → r.confidence ≤ (8 : ℚ)/10) ∧
    (r.urgency = Urgency.low → r.confidence = (6 : ℚ)/10) := by
  have hnegq : (-1 : ℚ) ≤ (h : ℚ) := by exact_mod_cast hneg
  have hmq : (0 : ℚ) ≤ (m : ℚ) := by exact_mod_cast hm
  split_ifs with h1 h2
  · have h1q : (3 : ℚ) ≤ (h : ℚ) := by exact_mod_cast h1
    exact ⟨by simp, le_min (by norm_num) (by linarith),
      min_le_left _ _, fun _ => min_le_left _ _, by simp, by simp⟩
  · have h2q : (1 : ℚ) ≤ (h : ℚ) ∨ (2 : ℚ) ≤ (m : ℚ) := by
      rcases h2 with h2 | h2
      · exact Or.inl (by exact_mod_cast h2)
      · exact Or.inr (by exact_mod_cast h2)
    refine ⟨by simp, le_min (by norm_num) ?_,
      le_trans (min_le_left _ _) (by norm_num), by simp,
      fun _ => min_le_left _ _, by simp⟩
    rcases h2q with h2q | h2q <;> linarith
  · exact ⟨by simp, by norm_num, by norm_num, by simp, by simp, fun _ => rfl⟩

/-- Range property of `classify_urgency` for arbitrary text and sentiment. -/
theorem classify_urgency_bounds (text : String) (s : Sentiment) :
    ((classify_urgency text s).urgency = Urgency.low ∨
     (classify_urgency text s).urgency = Urgency.medium ∨
     (classify_urgency text s).urgency = Urgency.high) ∧
    0 ≤ (classify_urgency text s).confidence ∧
    (classify_urgency text s).confidence ≤ (9 : ℚ)/10 ∧
    ((classify_urgency text s).urgency = Urgency.high →
      (classify_urgency text s).confidence ≤ (9 : ℚ)/10) ∧
    ((classify_urgency text s).urgency = Urgency.medium →
      (classify_urgency text s).confidence ≤ (8 : ℚ)/10) ∧
    ((classify_urgency text s).urgency = Urgency.low →
      (classify_urgency text s).confidence = (6 : ℚ)/10) := by
  have hh0 := keywordScore_nonneg high_urgency_keywords (lowerStr text)
  have hm0 := keywordScore_nonneg medium_urgency_keywords (lowerStr text)
  cases s <;> simp only [classify_urgency] <;>
    exact urgencyDecisionBounds _ _ (by omega) hm0

/-- Inverting a successful pydantic construction. -/
theorem mkTicket_eq_some (t t' : Ticket) (h : mkTicket t = some t') :
    t' = t ∧ ticketValid t = true := by
  simp only [mkTicket] at h
  split at h
  · exact ⟨(Option.some.inj h).symm, by assumption⟩
  · exact absurd h (by simp)

/-- Any ticket `process_email` returns passed pydantic validation and carries
the fused confidence score. -/
theorem process_email_some (email : String) (ents : List Entity) (pm : List String)
    (sr : SentimentResult) (llm : LLMOutcome) (t : Ticket)
    (h : process_email email ents pm sr llm = some t) :
    ticketValid t = true ∧
    t.confidence_score =
      (sr.confidence + (classify_urgency email sr.sentiment).confidence) / 2 := by
  cases llm with
  | failure =>
    simp only [process_email, create_fallback_ticket] at h
    obtain ⟨rfl, hv⟩ := mkTicket_eq_some _ _ h
    exact ⟨hv, rfl⟩
  | success t0 =>
    simp only [process_email] at h
    cases hmk : mkTicket { t0 with confidence_score :=
        (sr.confidence + (classify_urgency email sr.sentiment).confidence) / 2 } with
    | some tk =>
      rw [hmk] at h
      obtain ⟨rfl, hv⟩ := mkTicket_eq_some _ _ hmk
      cases Option.some.inj h
      exact ⟨hv, rfl⟩
    | none =>
      rw [hmk] at h
      simp only [create_fallback_ticket] at h
      obtain ⟨rfl, hv⟩ := mkTicket_eq_some _ _ h
      exact ⟨hv, rfl⟩

/-- A filtered length is the sum of per-element indicators. -/
theorem length_filter_eq_sum_indicator (p : String → Bool) (l : List String) :
    ((l.filter p).length : Int) =
      (l.map (fun k => if p k then (1 : Int) else 0)).sum := by
  induction l with
  | nil => rfl
  | cons a l ih =>
    by_cases hp : p a
    · simp [List.filter_cons, hp, ih]
      omega
    · simp [List.filter_cons, hp, ih]

/-- With neutral sentiment the reported keyword matches are the raw scores. -/
theorem classify_urgency_matches_neutral (text : String) :
    (classify_urgency text Sentiment.neutral).highMatches =
      keywordScore high_urgency_keywords (lowerStr text) ∧
    (classify_urgency text Sentiment.neutral).mediumMatches =
      keywordScore medium_urgency_keywords (lowerStr text) := by
  simp only [classify_urgency]
  split_ifs <;> exact ⟨rfl, rfl⟩

/-- C5: for every input text and sentiment, `classify_urgency` returns an
urgency among low/medium/high and a confidence in `[0, 9/10]`; the confidence
never exceeds `9/10` when the urgency is high, never exceeds `8/10` when it is
medium, and equals exactly `6/10` when it is low. -/
theorem classify_urgency_range (text : String) (s : Sentiment) :
    ((classify_urgency text s).urgency = Urgency.low ∨
     (classify_urgency text s).urgency = Urgency.medium ∨
     (classify_urgency text s).urgency = Urgency.high) ∧
    0 ≤ (classify_urgency text s).confidence ∧
    (classify_urgency text s).confidence ≤ (9 : ℚ)/10 ∧
    ((classify_urgency text s).urgency = Urgency.high →
      (classify_urgency text s).confidence ≤ (9 : ℚ)/10) ∧
    ((classify_urgency text s).urgency = Urgency.medium →
      (classify_urgency text s).confidence ≤ (8 : ℚ)/10) ∧
    ((classify_urgency text s).urgency = Urgency.low →
      (classify_urgency text s).confidence = (6 : ℚ)/10) :=
  classify_urgency_bounds text s

/-- C5 witness: the range property evaluated on the spec's example email with
neutral sentiment. -/
theorem classify_urgency_range_check :
    ((classify_urgency exampleEmail Sentiment.neutral).urgency = Urgency.low ∨
     (classify_urgency exampleEmail Sentiment.neutral).urgency = Urgency.medium ∨
     (classify_urgency exampleEmail Sentiment.neutral).urgency = Urgency.high) ∧
    0 ≤ (classify_urgency exampleEmail Sentiment.neutral).confidence ∧
    (classify_urgency exampleEmail Sentiment.neutral).confidence ≤ (9 : ℚ)/10 ∧
    ((classify_urgency exampleEmail Sentiment.neutral).urgency = Urgency.high →
      (classify_urgency exampleEmail Sentiment.neutral).confidence ≤ (9 : ℚ)/10) ∧
    ((classify_urgency exampleEmail Sentiment.neutral).urgency = Urgency.medium →
      (classify_urgency exampleEmail Sentiment.neutral).confidence ≤ (8 : ℚ)/10) ∧
    ((classify_urgency exampleEmail Sentiment.neutral).urgency = Urgency.low →
      (classify_urgency exampleEmail Sentiment.neutral).confidence = (6 : ℚ)/10) :=
  classify_urgency_range exampleEmail Sentiment.neutral

/-- C3: for every text and sentiment, `classify_urgency` first applies the
sentiment adjustment to the high score (negative +2, positive -1, neutral
unchanged) and then decides by the ordered first-match-wins rules with the
stated confidence formulas: its urgency and confidence coincide with
`classify_urgency_decision_spec` on the raw keyword scores. -/
theorem classify_urgency_refines_decision_spec (text : String) (s : Sentiment) :
    ((classify_urgency text s).urgency, (classify_urgency text s).confidence) =
      classify_urgency_decision_spec
        (keywordScore high_urgency_keywords (lowerStr text))
        (keywordScore medium_urgency_keywords (lowerStr text)) s := by
  cases s <;> simp only [classify_urgency, classify_urgency_decision_spec] <;>
    split_ifs <;> rfl

/-- C9 counterexample: on the empty string the keyword counts are zero, yet
with negative sentiment the classification does not fall to low — the +2
sentiment adjustment alone pushes it to medium. -/
theorem classify_urgency_empty_negative_not_low :
    (classify_urgency emptyEmail Sentiment.negative).urgency ≠ Urgency.low := by
  decide

/-- C9 (amended): `classify_urgency` is a total function — it returns a
result for every string and sentiment, the empty string included; on the
empty string both keyword scores are zero, and the classification falls to
low for neutral and positive sentiment, while the negative-sentiment +2
adjustment yields medium. -/
theorem classify_urgency_empty (s : Sentiment) :
    keywordScore high_urgency_keywords (lowerStr emptyEmail) = 0 ∧
    keywordScore medium_urgency_keywords (lowerStr emptyEmail) = 0 ∧
    (classify_urgency emptyEmail s).urgency =
      (if s = Sentiment.negative then Urgency.medium else Urgency.low) := by
  cases s <;> exact ⟨by decide, by decide, by decide⟩

/-- C10 counterexample: on the spec's example email with neutral sentiment
the classifier does not return medium. -/
theorem example_email_not_medium :
    (classify_urgency exampleEmail Sentiment.neutral).urgency ≠ Urgency.medium := by
  decide

/-- C10 (amended): the example email with neutral sentiment has high score 0
and medium score 1 (matching "question"), and the classifier returns low,
since the medium rule requires a high score of at least 1 or a medium score
of at least 2. -/
theorem example_email_classification :
    (classify_urgency exampleEmail Sentiment.neutral).highMatches = 0 ∧
    (classify_urgency exampleEmail Sentiment.neutral).mediumMatches = 1 ∧
    (classify_urgency exampleEmail Sentiment.neutral).urgency = Urgency.low := by
  decide

/-- C8 counterexample: in "urgent urgent" the keyword "urgent" occurs twice —
the spec's occurrence count is 2 — but the code's score is 1: a term
appearing twice contributes once, not twice. -/
theorem keyword_score_not_occurrence_count :
    (classify_urgency doubledText Sentiment.neutral).highMatches = 1 ∧
    occurrenceScore_spec high_urgency_keywords doubledText = 2 ∧
    (classify_urgency doubledText Sentiment.neutral).highMatches ≠
      occurrenceScore_spec high_urgency_keywords doubledText := by
  exact ⟨by decide, by decide, by decide⟩

/-- C8 (amended): the scores count, case-insensitively, how many keywords of
each set occur as a substring of the lowercased text at least once — a
per-keyword presence indicator summed over the set — so a term appearing
twice still contributes once, while distinct keywords overlapping as
substrings each contribute their own indicator. -/
theorem keyword_score_presence (text : String) :
    (classify_urgency text Sentiment.neutral).highMatches =
      (high_urgency_keywords.map
        (fun k => if strContainsSub (lowerStr text) k then (1 : Int) else 0)).sum ∧
    (classify_urgency text Sentiment.neutral).mediumMatches =
      (medium_urgency_keywords.map
        (fun k => if strContainsSub (lowerStr text) k then (1 : Int) else 0)).sum := by
  obtain ⟨h1, h2⟩ := classify_urgency_matches_neutral text
  rw [h1, h2]
  exact ⟨length_filter_eq_sum_indicator _ _, length_filter_eq_sum_indicator _ _⟩

/-- C6: the fallback summary rule — for email text of at most 100 characters
the summary is the text unchanged; for longer text it is exactly the first
100 characters followed by "...". -/
theorem fallback_summary_boundary (email : String) (ents : List Entity)
    (pm : List String) (sr : SentimentResult) (ur : UrgencyResult) :
    (strLen email ≤ 100 → (fallbackFields email ents pm sr ur).summary = email) ∧
    (100 < strLen email →
      (fallbackFields email ents pm sr ur).summary = takeStr email 100 ++ "...") := by
  constructor <;> intro h <;> simp only [fallbackFields] <;>
    [rw [if_neg (by omega)]; rw [if_pos (by omega)]]

/-- C6 witness: the boundary rule evaluated on a 3-character and on a
101-character email. -/
theorem fallback_summary_boundary_check :
    strLen shortEmail ≤ 100 ∧ 100 < strLen longEmail ∧
    (fallbackFields shortEmail [] [] srNeutral urLow).summary = shortEmail ∧
    (fallbackFields longEmail [] [] srNeutral urLow).summary =
      takeStr longEmail 100 ++ "..." :=
  ⟨by decide, by decide,
    (fallback_summary_boundary shortEmail [] [] srNeutral urLow).1 (by decide),
    (fallback_summary_boundary longEmail [] [] srNeutral urLow).2 (by decide)⟩

/-- C7 counterexample: with entities, product mentions, sentiment result and
urgency result all fixed, two different email texts produce different
fallback summaries — the summary is not determined solely by those four
inputs. -/
theorem fallback_summary_not_determined_by_signals :
    (fallbackFields shortEmail [] [] srNeutral urLow).summary ≠
      (fallbackFields otherEmail [] [] srNeutral urLow).summary := by
  decide

/-- C7 (amended): the fallback construction is a pure function of the email
text together with the four signal inputs (so repeated calls on identical
inputs yield identical tickets); componentwise, customer_id is determined by
the entities alone, product by the product mentions alone, summary by the
email text alone, and next_action by the urgency label alone. -/
theorem fallback_determinism (e e' : String) (ents ents' : List Entity)
    (pm pm' : List String) (sr sr' : SentimentResult) (ur ur' : UrgencyResult) :
    fallbackFields e ents pm sr ur = fallbackFields e ents pm sr ur ∧
    (ents = ents' →
      (fallbackFields e ents pm sr ur).customer_id =
        (fallbackFields e' ents' pm' sr' ur').customer_id) ∧
    (pm = pm' →
      (fallbackFields e ents pm sr ur).product =
        (fallbackFields e' ents' pm' sr' ur').product) ∧
    (e = e' →
      (fallbackFields e ents pm sr ur).summary =
        (fallbackFields e' ents' pm' sr' ur').summary) ∧
    (ur.urgency = ur'.urgency →
      (fallbackFields e ents pm sr ur).next_action =
        (fallbackFields e' ents' pm' sr' ur').next_action) := by
  refine ⟨rfl, fun h => ?_, fun h => ?_, fun h => ?_, fun h => ?_⟩
  · subst h; simp only [fallbackFields]
  · subst h; simp only [fallbackFields]
  · subst h; simp only [fallbackFields]
  · simp only [fallbackFields]; rw [h]

/-- C7 witness: field determination evaluated on concrete inputs — equal
entity lists give equal customer ids even when everything else differs, and
equal urgency labels give equal next actions. -/
theorem fallback_determinism_check :
    (fallbackFields shortEmail [] [] srNeutral urLow).customer_id =
      (fallbackFields otherEmail [] [] srNeutral urLow).customer_id ∧
    (fallbackFields shortEmail [] [] srNeutral urLow).next_action =
      (fallbackFields otherEmail [] [] srNeutral urLow).next_action :=
  ⟨(fallback_determinism shortEmail otherEmail [] [] [] [] srNeutral srNeutral
      urLow urLow).2.1 rfl,
   (fallback_determinism shortEmail otherEmail [] [] [] [] srNeutral srNeutral
      urLow urLow).2.2.2.2 rfl⟩

/-- Concrete evaluation: the empty email with neutral sentiment classifies
as low urgency with the fixed confidence. -/
theorem classify_urgency_emptyEmail_neutral :
    classify_urgency emptyEmail Sentiment.neutral =
      { urgency := .low, confidence := (6 : ℚ)/10
        highMatches := 0, mediumMatches := 0 } := rfl

/-- Concrete evaluation of the LLM-failure path on the empty email. -/
theorem process_email_emptyEmail_failure :
    process_email emptyEmail [] [] srNeutral LLMOutcome.failure =
      some demoFallbackTicket := by
  have hv : ticketValid (fallbackFields emptyEmail [] [] srNeutral
      (classify_urgency emptyEmail Sentiment.neutral)) = true := by
    simp only [ticketValid, fallbackFields,
      classify_urgency_emptyEmail_neutral, Bool.and_eq_true, decide_eq_true_eq]
    norm_num [srNeutral]
  have hs : srNeutral.sentiment = Sentiment.neutral := rfl
  simp only [process_email, create_fallback_ticket, demoFallbackTicket, hs,
    mkTicket, hv, if_true]

/-- Concrete evaluation of the LLM-success path on the empty email: the
proposed confidence score 1 is replaced by the fused mean 11/20. -/
theorem process_email_emptyEmail_success :
    process_email emptyEmail [] [] srNeutral (LLMOutcome.success llmProposedTicket) =
      some { llmProposedTicket with confidence_score := (11 : ℚ)/20 } := by
  have hc : (srNeutral.confidence +
      (classify_urgency emptyEmail srNeutral.sentiment).confidence) / 2 = (11 : ℚ)/20 := by
    simp only [srNeutral, classify_urgency_emptyEmail_neutral]
    norm_num
  have hv : ticketValid { llmProposedTicket with confidence_score := (11 : ℚ)/20 } = true := by
    simp only [ticketValid, Bool.and_eq_true, decide_eq_true_eq]
    norm_num
  simp only [process_email, hc, mkTicket, hv, if_true]

/-- C4: on both the LLM-success and fallback paths the returned ticket's
confidence score equals the arithmetic mean of the sentiment and urgency
confidences; in particular any score the LLM itself proposed is discarded. -/
theorem confidence_fusion (email : String) (ents : List Entity)
    (pm : List String) (sr : SentimentResult) (llm : LLMOutcome) (t : Ticket)
    (h : process_email email ents pm sr llm = some t) :
    t.confidence_score =
      (sr.confidence + (classify_urgency email sr.sentiment).confidence) / 2 :=
  (process_email_some email ents pm sr llm t h).2

/-- C4 witness: on the LLM-success path for the empty email with neutral
sentiment, the LLM's proposed score 1 is replaced by the fused mean. -/
theorem confidence_fusion_check :
    ({ llmProposedTicket with confidence_score := (11 : ℚ)/20 } : Ticket).confidence_score =
      (srNeutral.confidence + (classify_urgency emptyEmail srNeutral.sentiment).confidence) / 2 :=
  confidence_fusion emptyEmail [] [] srNeutral (LLMOutcome.success llmProposedTicket)
    { llmProposedTicket with confidence_score := (11 : ℚ)/20 }
    process_email_emptyEmail_success

/-- C2: every ticket `process_email` returns satisfies the §3 data-model
invariants — sentiment among the three labels, urgency among the three
labels, confidence score in [0,1] — whether the LLM step succeeded or failed
(the `entities` field has type `List Entity`, so it is a possibly empty,
never-null sequence by construction). -/
theorem process_email_invariants (email : String) (ents : List Entity)
    (pm : List String) (sr : SentimentResult) (llm : LLMOutcome) (t : Ticket)
    (h : process_email email ents pm sr llm = some t) :
    (t.sentiment = Sentiment.positive ∨ t.sentiment = Sentiment.neutral ∨
      t.sentiment = Sentiment.negative) ∧
    (t.urgency = Urgency.low ∨ t.urgency = Urgency.medium ∨
      t.urgency = Urgency.high) ∧
    0 ≤ t.confidence_score ∧ t.confidence_score ≤ 1 := by
  obtain ⟨hv, -⟩ := process_email_some email ents pm sr llm t h
  simp only [ticketValid, Bool.and_eq_true, decide_eq_true_eq] at hv
  exact ⟨by cases t.sentiment <;> tauto, by cases t.urgency <;> tauto, hv.1, hv.2⟩

/-- C2 witness: the invariants evaluated on the concrete fallback ticket the
agent produces for the empty email with neutral sentiment and a failed LLM
step. -/
theorem process_email_invariants_check :
    (demoFallbackTicket.sentiment = Sentiment.positive ∨
      demoFallbackTicket.sentiment = Sentiment.neutral ∨
      demoFallbackTicket.sentiment = Sentiment.negative) ∧
    (demoFallbackTicket.urgency = Urgency.low ∨
      demoFallbackTicket.urgency = Urgency.medium ∨
      demoFallbackTicket.urgency = Urgency.high) ∧
    0 ≤ demoFallbackTicket.confidence_score ∧
    demoFallbackTicket.confidence_score ≤ 1 :=
  process_email_invariants emptyEmail [] [] srNeutral LLMOutcome.failure
    demoFallbackTicket process_email_emptyEmail_failure

/-- C1: `process_email` never fails: whenever the sentiment confidence obeys
its `[0,1]` contract (§4.2), every path — LLM success, LLM failure, or a
validation error on the LLM result — returns a ticket, and an LLM failure is
swallowed entirely: the result is exactly the deterministic fallback ticket,
with no error surfaced to the caller. -/
theorem process_email_total (email : String) (ents : List Entity)
    (pm : List String) (sr : SentimentResult) (llm : LLMOutcome)
    (h0 : 0 ≤ sr.confidence) (h1 : sr.confidence ≤ 1) :
    (process_email email ents pm sr llm).isSome = true ∧
    process_email email ents pm sr LLMOutcome.failure =
      create_fallback_ticket email ents pm sr
        (classify_urgency email sr.sentiment) := by
  have hb := classify_urgency_bounds email sr.sentiment
  have hu0 : 0 ≤ (classify_urgency email sr.sentiment).confidence := hb.2.1
  have hu1 := hb.2.2.1
  have hvfb : ticketValid
      (fallbackFields email ents pm sr (classify_urgency email sr.sentiment)) = true := by
    simp only [ticketValid, fallbackFields, Bool.and_eq_true, decide_eq_true_eq]
    constructor <;> linarith
  refine ⟨?_, rfl⟩
  cases llm with
  | failure =>
    simp only [process_email, create_fallback_ticket, mkTicket, hvfb, if_true,
      Option.isSome_some]
  | success t0 =>
    simp only [process_email]
    cases hmk : mkTicket { t0 with confidence_score :=
        (sr.confidence + (classify_urgency email sr.sentiment).confidence) / 2 } with
    | some tk => rfl
    | none =>
      show (create_fallback_ticket email ents pm sr
        (classify_urgency email sr.sentiment)).isSome = true
      simp only [create_fallback_ticket, mkTicket, hvfb, if_true, Option.isSome_some]

/-- C1 witness: totality and failure swallowing evaluated on the empty email
with neutral sentiment of confidence 1/2. -/
theorem process_email_total_check :
    (process_email emptyEmail [] [] srNeutral LLMOutcome.failure).isSome = true ∧
    process_email emptyEmail [] [] srNeutral LLMOutcome.failure =
      create_fallback_ticket emptyEmail [] [] srNeutral
        (classify_urgency emptyEmail srNeutral.sentiment) :=
  process_email_total emptyEmail [] [] srNeutral LLMOutcome.failure
    (by norm_num [srNeutral]) (by norm_num [srNeutral])
